import Mathlib

/-!
Verification development for the SkillSage career-advice assistant.

The repository couples a FastAPI document-store layer (src/main.py) with a
retrieval-augmented advisor (src/rag_pipeline.py).  Profile documents are
shallowly embedded as Lean structures, MongoDB update operators as list
operations, the ChromaDB retrieval step as explicit environment functions
returning `Except` values, and the generative backend as an opaque
`String -> Except String String` function.  Distances and similarity scores
are modelled as rationals; machine strings as Lean strings acting on their
character lists.  Components of the repository that are referenced by the
sources but whose implementation file is not part of the snapshot (the skill
matcher, the gap-analysis engine, and the recommendation ranker of the
advisor object) are modelled from the specification and marked as such in
their doc comments.
-/

namespace SkillSage

/-- Character-level lower-casing plus whitespace trim, the normalization the
spec mandates for skill-label comparison (Python `label.strip().lower()`). -/
def normalize (s : String) : String :=
  String.mk ((((s.data.dropWhile Char.isWhitespace).reverse.dropWhile
      Char.isWhitespace).reverse).map Char.toLower)

/-- Python upper-casing of a string, character by character. -/
def pyUpper (s : String) : String :=
  String.mk (s.data.map Char.toUpper)

/-- The apostrophe character, used when rendering Python list literals. -/
def quoteCh : String := String.singleton (Char.ofNat 39)

/-- Python `repr` of a list of strings, as interpolated by an f-string. -/
def pyListRepr (l : List String) : String :=
  "[" ++ String.intercalate ", " (l.map (fun s => quoteCh ++ s ++ quoteCh)) ++ "]"

/-- One entry of a missing-skill list: the originating skill label, the goal
it was computed for, a priority tag, and an estimated learning time. -/
structure MissingSkill where
  skill : String
  goal : String
  priority : String
  estimated_time : String
deriving DecidableEq

/-- A user document of the `users` collection, with the fields created by
`/register` and read or mutated by the profile, skill and analysis routes of
src/main.py (fields the code reads through `.get` with a default are
`Option`-valued). -/
structure UserDoc where
  email : String
  name : String
  skills : List String
  career_goal : List String
  qualifications : List String
  skill_ratings : List (String × Int)
  custom_missing_skills : List MissingSkill
  currently_learning : List String
  location : Option String
  employment_status : Option String
  current_activity : Option String
  dreams : Option String
  education : Option String
  interests : Option (List String)
deriving DecidableEq

/-- MongoDB `$addToSet`: append the element only when it is not yet present. -/
def addToSet (l : List String) (x : String) : List String :=
  if x ∈ l then l else l ++ [x]

/-- MongoDB `$pull`: remove every occurrence of the element. -/
def pull (l : List String) (x : String) : List String :=
  l.filter (fun y => decide (y ≠ x))

/-- MongoDB `$unset` of one key of the `skill_ratings` subdocument. -/
def unsetKey (m : List (String × Int)) (k : String) : List (String × Int) :=
  m.filter (fun p => decide (p.1 ≠ k))

/-- Lookup of one key of the `skill_ratings` subdocument. -/
def lookupKey (m : List (String × Int)) (k : String) : Option Int :=
  (m.find? (fun p => decide (p.1 = k))).map Prod.snd

/-- Request body of `PUT /api/profile` (src/main.py `UserProfileUpdate`):
scalar fields are optional, list fields default to the empty list and are
therefore always part of the update payload. -/
structure UserProfileUpdate where
  name : Option String
  location : Option String
  employment_status : Option String
  current_activity : Option String
  career_goal : List String
  qualifications : List String
  skills : List String
  currently_learning : List String
  dreams : Option String

/-- Optional-field update: keep the old value when the client sent nothing. -/
def setOpt (new old : Option String) : Option String :=
  match new with
  | some v => some v
  | none => old

/-- src/main.py `update_profile`: write every non-`None` field of the payload
and restrict `skill_ratings` to the keys of the new skills list. -/
def updateProfile (u : UserDoc) (d : UserProfileUpdate) : UserDoc :=
  { u with
    name := (d.name).getD u.name
    location := setOpt d.location u.location
    employment_status := setOpt d.employment_status u.employment_status
    current_activity := setOpt d.current_activity u.current_activity
    dreams := setOpt d.dreams u.dreams
    career_goal := d.career_goal
    qualifications := d.qualifications
    currently_learning := d.currently_learning
    skills := d.skills
    skill_ratings := u.skill_ratings.filter (fun p => decide (p.1 ∈ d.skills)) }

/-- Request body of `POST /api/skills/action` (src/main.py `SkillAction`). -/
structure SkillAction where
  skill : String
  action : String
  active : Bool

/-- src/main.py `skill_action`: toggle a skill between the `skills` and
`currently_learning` lists, seeding a rating of 1 for a newly learned skill
and unsetting the rating when the skill leaves the `skills` list. -/
def skillAction (u : UserDoc) (d : SkillAction) : UserDoc :=
  if d.action = "learned" then
    if d.active then
      if (lookupKey u.skill_ratings d.skill).isNone then
        { u with skills := addToSet u.skills d.skill
                 currently_learning := pull u.currently_learning d.skill
                 skill_ratings := u.skill_ratings ++ [(d.skill, 1)] }
      else
        { u with skills := addToSet u.skills d.skill
                 currently_learning := pull u.currently_learning d.skill }
    else
      { u with skills := pull u.skills d.skill
               skill_ratings := unsetKey u.skill_ratings d.skill }
  else if d.action = "learning" then
    if d.active then
      { u with currently_learning := addToSet u.currently_learning d.skill
               skills := pull u.skills d.skill
               skill_ratings := unsetKey u.skill_ratings d.skill }
    else
      { u with currently_learning := pull u.currently_learning d.skill }
  else u

/-- src/main.py `save_analysis`: overwrite `skill_ratings` and
`custom_missing_skills` with the request payload, verbatim. -/
def saveAnalysis (u : UserDoc) (ratings : List (String × Int))
    (custom : List MissingSkill) : UserDoc :=
  { u with skill_ratings := ratings, custom_missing_skills := custom }

/-- The documented profile invariant: every rated skill is a listed skill. -/
def ratingsInvariant (u : UserDoc) : Prop :=
  ∀ p ∈ u.skill_ratings, p.1 ∈ u.skills

instance (u : UserDoc) : Decidable (ratingsInvariant u) := by
  unfold ratingsInvariant; infer_instance

/-- Disjointness of learned and in-progress skills. -/
def learningDisjoint (u : UserDoc) : Prop :=
  ∀ s, s ∈ u.skills → s ∉ u.currently_learning

instance (u : UserDoc) : Decidable (learningDisjoint u) := by
  unfold learningDisjoint; infer_instance

/-- Python banker rounding of a rational to the nearest integer
(round-half-even, the semantics of the built-in `round`). -/
def pyRoundQ (q : ℚ) : ℤ :=
  if q - ⌊q⌋ < 1 / 2 then ⌊q⌋
  else if 1 / 2 < q - ⌊q⌋ then ⌊q⌋ + 1
  else if ⌊q⌋ % 2 = 0 then ⌊q⌋ else ⌊q⌋ + 1

/-- Python `round(q, 3)`: round to three decimal places. -/
def round3 (q : ℚ) : ℚ := (pyRoundQ (q * 1000) : ℚ) / 1000

/-- One retrieved knowledge-base entry as assembled by `retrieve_context`:
document text, metadata record, and the stored similarity score. -/
structure RetrievedDoc where
  content : String
  metadata : List (String × String)
  similarity : ℚ
deriving DecidableEq

/-- The slice of a ChromaDB query result used by `retrieve_context`: the
first-query document list and the optional parallel distance and metadata
lists (`results.get` treats a missing or empty entry as falsy). -/
structure ChromaResult where
  documents : List String
  distances : Option (List ℚ)
  metadatas : Option (List (List (String × String)))

/-- The per-topic retrieval result of `retrieve_context`. -/
structure Retrieved where
  careers : List RetrievedDoc
  skills : List RetrievedDoc
  faqs : List RetrievedDoc

/-- One conversation-history message (`{"role": ..., "content": ...}`). -/
structure Msg where
  role : String
  content : String
deriving DecidableEq

/-- A structured per-career requirement document: required-skill label to
target proficiency level. -/
structure CareerDoc where
  title : String
  requirements : List (String × Int)

/-- The external collaborators of the advisor, as functions: the MongoDB
`find_one`, the sentence-transformer `encode`, the three ChromaDB collection
queries, the Gemini `generate_content` (composed with `.text`), the system
prompt selected at construction, and — for the spec-modelled components —
the career-requirement lookup and the candidate-career vector search. -/
structure RagEnv where
  usersFindOne : String → Except String (Option UserDoc)
  encode : String → Except String (List ℚ)
  queryCareers : List ℚ → Nat → Except String ChromaResult
  querySkills : List ℚ → Nat → Except String ChromaResult
  queryFaqs : List ℚ → Nat → Except String ChromaResult
  generateContent : String → Except String String
  systemPrompt : String
  findRequirement : String → Option (List (String × Int))
  searchCareers : String → Nat → List CareerDoc

/-- src/rag_pipeline.py `_get_embedding`: the encoder result, with any
exception caught and turned into the empty vector. -/
def getEmbedding (env : RagEnv) (text : String) : List ℚ :=
  match env.encode text with
  | .ok v => v
  | .error _ => []

/-- The fixed profile block substituted when the user is not in MongoDB. -/
def guestProfileMsg : String :=
  "**User Profile:** Guest user (no profile data available)"

/-- The profile block substituted when the MongoDB read itself fails. -/
def profileErrorMsg : String :=
  "**User Profile:** Unable to load profile data"

/-- src/rag_pipeline.py `get_user_context`, found-user branch: the formatted
profile block (the stored goal list is interpolated the way a Python
f-string renders a list). -/
def profileContext (u : UserDoc) : String :=
  "## USER PROFILE\n\n**Name:** " ++ u.name
    ++ "\n**Current Role/Activity:** " ++ u.current_activity.getD "Not specified"
    ++ "\n**Career Goal:** " ++ pyListRepr u.career_goal
    ++ "\n**Current Skills:** " ++ String.intercalate ", " u.skills
    ++ "\n**Experience Level:** " ++ u.employment_status.getD "Not specified"
    ++ "\n**Education:** " ++ u.education.getD "Not specified"
    ++ "\n**Location:** " ++ u.location.getD "Not specified"
    ++ "\n**Interests:** " ++ String.intercalate ", " (u.interests.getD ["Not specified"])
    ++ "\n"

/-- src/rag_pipeline.py `get_user_context`: fetch the profile, degrading a
missing user to the guest block and a store failure to the error block. -/
def getUserContext (env : RagEnv) (email : String) : String :=
  match env.usersFindOne email with
  | .error _ => profileErrorMsg
  | .ok none => guestProfileMsg
  | .ok (some u) => profileContext u

/-- The distance of the candidate at one index: the parallel distances list
when present and `1.0` otherwise. -/
def distAt (res : ChromaResult) (i : Nat) : ℚ :=
  match res.distances with
  | some ds => ds.getD i 1
  | none => 1

/-- The metadata record of the candidate at one index. -/
def metaAt (res : ChromaResult) (i : Nat) : List (String × String) :=
  match res.metadatas with
  | some ms => ms.getD i []
  | none => []

/-- The filtering loop of `retrieve_context` over one collection result:
keep, in order, each document whose distance is below the threshold, storing
`round(1 - distance, 3)` as its similarity. -/
def collectDocs (res : ChromaResult) (thr : ℚ) : Nat → List String → List RetrievedDoc
  | _, [] => []
  | i, doc :: rest =>
    if distAt res i < thr then
      ⟨doc, metaAt res i, round3 (1 - distAt res i)⟩ :: collectDocs res thr (i + 1) rest
    else
      collectDocs res thr (i + 1) rest

/-- One `try` block of `retrieve_context`: a failed collection query yields
the empty list, a successful one is filtered by the similarity threshold. -/
def processCollection (r : Except String ChromaResult) (thr : ℚ) : List RetrievedDoc :=
  match r with
  | .error _ => []
  | .ok res => if res.documents.isEmpty then [] else collectDocs res thr 0 res.documents

/-- src/rag_pipeline.py `retrieve_context`: embed the query and query the
three collections independently; an empty embedding short-circuits to an
empty result set. -/
def retrieveContext (env : RagEnv) (query : String) (nCareers nSkills nFaqs : Nat)
    (thr : ℚ) : Retrieved :=
  let qe := getEmbedding env query
  if qe.isEmpty then ⟨[], [], []⟩
  else
    { careers := processCollection (env.queryCareers qe nCareers) thr
      skills := processCollection (env.querySkills qe nSkills) thr
      faqs := processCollection (env.queryFaqs qe nFaqs) thr }

/-- Rendering of a similarity score the way `f"{similarity:.1%}"` does. -/
def relevanceText (q : ℚ) : String :=
  let t := pyRoundQ (q * 1000)
  toString (t / 10) ++ "." ++ toString (t % 10) ++ "%"

/-- The enumerated per-entry lines of one knowledge-base section. -/
def sectionParts (label : String) : Nat → List RetrievedDoc → List String
  | _, [] => []
  | i, d :: ds =>
    ("### " ++ label ++ " " ++ toString i ++ " (Relevance: "
        ++ relevanceText d.similarity ++ ")\n")
      :: d.content :: "" :: sectionParts label (i + 1) ds

/-- src/rag_pipeline.py `format_retrieved_context`. -/
def formatRetrievedContext (r : Retrieved) : String :=
  let parts :=
    (if r.careers.isEmpty then []
     else "## RELEVANT CAREERS FROM KNOWLEDGE BASE\n"
        :: sectionParts "Career Option" 1 r.careers)
    ++ (if r.skills.isEmpty then []
        else "\n## RELEVANT SKILLS FROM KNOWLEDGE BASE\n"
           :: sectionParts "Skill" 1 r.skills)
    ++ (if r.faqs.isEmpty then []
        else "\n## RELEVANT Q&As FROM KNOWLEDGE BASE\n"
           :: sectionParts "Related Question" 1 r.faqs)
  if parts.isEmpty then
    "No specific internal data found on this topic in our knowledge base."
  else String.intercalate "\n" parts

/-- The header line of the conversation-history block. -/
def histHeader : String := "\n## CONVERSATION HISTORY (Recent Messages)\n\n"

/-- One formatted history message. -/
def fmtMsg (m : Msg) : String :=
  "**" ++ pyUpper m.role ++ ":** " ++ m.content ++ "\n\n"

/-- The bounded history window: Python `conversation_history[-5:]`. -/
def historySlice (h : List Msg) : List Msg := h.drop (h.length - 5)

/-- The history block of `query_advisor`: empty for an absent or empty
history, otherwise the header followed by the last five messages. -/
def historyText : Option (List Msg) → String
  | none => ""
  | some h =>
    if h.isEmpty then ""
    else histHeader ++ String.join ((historySlice h).map fmtMsg)

/-- The section header of the current question (avoiding a bare quote). -/
def questionHeader : String := "## USER" ++ quoteCh ++ "S CURRENT QUESTION"

/-- Everything of the grounding prompt before the history block. -/
def promptPre (env : RagEnv) (email query : String) : String :=
  env.systemPrompt ++ "\n\n---\n\n" ++ getUserContext env email ++ "\n\n---\n\n"
    ++ formatRetrievedContext (retrieveContext env query 3 5 2 (7 / 10))
    ++ "\n\n---\n\n"

/-- Everything of the grounding prompt after the history block. -/
def promptPost (query : String) : String :=
  "\n\n---\n\n" ++ questionHeader ++ "\n" ++ query
    ++ "\n\n---\n\nAs Orion, provide a helpful, personalized response following all guidelines above:\n"

/-- The complete prompt `query_advisor` submits to the generative backend:
system prompt, profile block, knowledge block, history block and current
query, concatenated in that fixed order. -/
def builtPrompt (env : RagEnv) (email query : String) (hist : Option (List Msg)) : String :=
  promptPre env email query ++ historyText hist ++ promptPost query

/-- The fixed apology with which the fallback answer of `query_advisor`
starts; the caught error detail is appended after it. -/
def fallbackApology : String :=
  "I apologize, but I encountered an error processing your question. Please try rephrasing your question or contact support if the issue persists. Error details: "

/-- src/rag_pipeline.py `query_advisor`: assemble the grounding prompt,
submit it to the backend, and catch any generation failure into the
apologetic fallback answer. -/
def queryAdvisor (env : RagEnv) (email query : String) (hist : Option (List Msg)) : String :=
  match env.generateContent (builtPrompt env email query hist) with
  | .ok t => t
  | .error e => fallbackApology ++ e

/-- Modelled from the spec: the rounding of the coverage formula of the
skill matcher, over naturals — round-half-even of the fraction a / b. -/
def roundHE (a b : Nat) : Nat :=
  if 2 * (a % b) < b then a / b
  else if b < 2 * (a % b) then a / b + 1
  else if a / b % 2 = 0 then a / b else a / b + 1

/-- Modelled from the spec: the presence-only matching strategy of the skill
matcher, whose implementation file is not part of the snapshot — a required
label is matched iff its normalized form equals the normalized form of some
user skill (whole-string comparison, no tokenization). -/
def presenceMatched (req : List (String × Int)) (skills : List String) :
    List (String × Int) :=
  req.filter (fun p => decide (normalize p.1 ∈ skills.map normalize))

/-- Modelled from the spec: the presence-only coverage percentage of the
skill matcher — `round(100 × matched / max(1, required))`. -/
def coverage (req : List (String × Int)) (skills : List String) : Nat :=
  roundHE (100 * (presenceMatched req skills).length) (max 1 req.length)

/-- Modelled from the spec: the token split of the token-plus-rating matching
strategy — a label is split on space, slash, ampersand and comma, each token
lower-cased and trimmed. -/
def tokenizeLabel (label : String) : List String :=
  (splitChars (fun c => c = ' ' ∨ c = '/' ∨ c = '&' ∨ c = ',') label.data).map
    (fun cs => normalize (String.mk cs))
where
  /-- Split of a character list on a delimiter class. -/
  splitChars (p : Char → Prop) [DecidablePred p] : List Char → List (List Char)
    | [] => [[]]
    | c :: cs =>
      if p c then [] :: splitChars p cs
      else
        match splitChars p cs with
        | [] => [[c]]
        | w :: ws => (c :: w) :: ws

/-- Modelled from the spec: the rating-map lookup of the token matcher,
with the case-insensitive keying the data model mandates. -/
def ratingLookup (ratings : List (String × Int)) (key : String) : Int :=
  ((ratings.find? (fun p => decide (normalize p.1 = key))).map Prod.snd).getD 0

/-- Modelled from the spec: the derived rating of a required label — the
maximum of the rating of any token and the rating of the full lower-cased
label, defaulting to 0. -/
def derivedRating (ratings : List (String × Int)) (label : String) : Int :=
  (tokenizeLabel label).foldl (fun acc t => max acc (ratingLookup ratings t))
    (ratingLookup ratings (pyLower label))
where
  /-- Python lower-casing of a whole string. -/
  pyLower (s : String) : String := String.mk (s.data.map Char.toLower)

/-- Modelled from the spec: lenient presence — the user has the label iff at
least one token string-equals a normalized entry of the raw skill list. -/
def lenientPresent (skills : List String) (label : String) : Bool :=
  (tokenizeLabel label).any (fun t => decide (t ∈ skills.map normalize))

/-- Modelled from the spec: the strict missing-skill policy — missing if not
leniently present, or unrated, or rated more than 2 below the target. -/
def strictMissing (skills : List String) (ratings : List (String × Int))
    (label : String) (target : Int) : Bool :=
  !lenientPresent skills label
    || decide (derivedRating ratings label = 0)
    || decide (derivedRating ratings label < target - 2)

/-- Modelled from the spec: the fixed generic fallback requirement map of
three skills at level 5, substituted for a goal absent from the store. -/
def fallbackRequirement : List (String × Int) :=
  [("Communication", 5), ("Problem Solving", 5), ("Teamwork", 5)]

/-- Modelled from the spec: requirement resolution of the gap engine —
store lookup with the generic fallback on a miss. -/
def resolveRequirement (env : RagEnv) (goal : String) : List (String × Int) :=
  (env.findRequirement goal).getD fallbackRequirement

/-- One per-goal chart of the gap-analysis document: parallel label, user
level and target level series. -/
structure ChartSeries where
  goal : String
  labels : List String
  user_levels : List Int
  target_levels : List Int

/-- Modelled from the spec: the chart series of one goal — the requirement
map capped to its first 12 entries, with the derived user rating and the
target level per label. -/
def chartFor (u : UserDoc) (goal : String) (req : List (String × Int)) : ChartSeries :=
  let capped := req.take 12
  { goal := goal
    labels := capped.map Prod.fst
    user_levels := capped.map (fun p => derivedRating u.skill_ratings p.1)
    target_levels := capped.map Prod.snd }

/-- Modelled from the spec: the keyword-bucket priority and learning-time
heuristic of the strict policy (bucket membership by substring). -/
def missingMeta (label : String) : String × String :=
  let l := normalize label
  if ["python", "sql", "statistics", "mathematics", "programming"].any
      (fun k => decide (k.data <:+: l.data)) then ("High", "8-12 weeks")
  else if ["excel", "tableau", "git", "docker", "power bi"].any
      (fun k => decide (k.data <:+: l.data)) then ("Medium", "2-4 weeks")
  else if ["machine learning", "deep learning", "nlp"].any
      (fun k => decide (k.data <:+: l.data)) then ("High", "12+ weeks")
  else ("Low", "2-3 weeks")

/-- Modelled from the spec: the missing-skill entries of one goal under the
strict policy, computed over the full (uncapped) requirement map. -/
def missingFor (u : UserDoc) (goal : String) (req : List (String × Int)) :
    List MissingSkill :=
  (req.filter (fun p => strictMissing u.skills u.skill_ratings p.1 p.2)).map
    (fun p => ⟨p.1, goal, (missingMeta p.1).1, (missingMeta p.1).2⟩)

/-- Modelled from the spec: deduplication of the aggregate missing-skill
list by (skill label, goal) pair, keeping first occurrences. -/
def dedupMissing (l : List MissingSkill) : List MissingSkill :=
  l.foldl
    (fun acc m =>
      if acc.any (fun m2 => decide (m2.skill = m.skill ∧ m2.goal = m.goal)) then acc
      else acc ++ [m])
    []

/-- The gap-analysis document: per-goal chart series, the flattened
missing-skill list, the raw skill list, the raw rating map, and the
surfaced currently-learning set. -/
structure GapAnalysisDocument where
  charts : List ChartSeries
  missing_skills : List MissingSkill
  skills : List String
  skill_ratings : List (String × Int)
  currently_learning : List String

/-- Modelled from the spec: the gap-analysis engine for one resolved user —
per goal, resolve a requirement map, build the capped chart and the
uncapped strict missing set, deduplicate, and surface the raw profile. -/
def gapAnalysisFor (env : RagEnv) (u : UserDoc) : GapAnalysisDocument :=
  let perGoal := u.career_goal.map (fun g => (g, resolveRequirement env g))
  { charts := perGoal.map (fun p => chartFor u p.1 p.2)
    missing_skills := dedupMissing ((perGoal.map (fun p => missingFor u p.1 p.2)).flatten)
    skills := u.skills
    skill_ratings := u.skill_ratings
    currently_learning := u.currently_learning }

/-- The profile-store read used by the spec-modelled operations: a user is
resolved only by a successful, non-empty `find_one`. -/
def usersLookup (env : RagEnv) (userKey : String) : Option UserDoc :=
  match env.usersFindOne userKey with
  | .ok (some u) => some u
  | _ => none

/-- Modelled from the spec: `get_detailed_gap_analysis(user_key)`, the
second caller-facing operation of the advisor object. -/
def getDetailedGapAnalysis (env : RagEnv) (userKey : String) :
    Option GapAnalysisDocument :=
  (usersLookup env userKey).map (gapAnalysisFor env)

/-- One recommendation entry: career title, strict skill-coverage score and
the short matching-skills display text. -/
structure RecommendationEntry where
  title : String
  match_score : Nat
  matching_skills_text : String

/-- Modelled from the spec: Python `.title()` casing of a display name. -/
def pyTitle (s : String) : String :=
  String.mk (titleChars false s.data)
where
  /-- Capitalize the first character of each alphabetic run. -/
  titleChars : Bool → List Char → List Char
    | _, [] => []
    | prevAlpha, c :: cs =>
      (if c.isAlpha then (if prevAlpha then c.toLower else c.toUpper) else c)
        :: titleChars c.isAlpha cs

/-- Modelled from the spec: the matching-skills display string — up to 3
title-cased matched names joined by commas, a `+N more` suffix when more
than 3 match, and a literal fallback when none match. -/
def matchingSkillsText (req : List (String × Int)) (skills : List String) : String :=
  let matched := (presenceMatched req skills).map Prod.fst
  if matched.isEmpty then "No matching skills yet"
  else
    String.intercalate ", " ((matched.take 3).map pyTitle)
      ++ (if 3 < matched.length then " +" ++ toString (matched.length - 3) ++ " more" else "")

/-- Insertion of a recommendation into a list sorted by descending score. -/
def insertByScore (x : RecommendationEntry) :
    List RecommendationEntry → List RecommendationEntry
  | [] => [x]
  | y :: ys =>
    if y.match_score ≤ x.match_score then x :: y :: ys else y :: insertByScore x ys

/-- Descending insertion sort by match score (the re-sort that discards the
vector-similarity order). -/
def sortByScore : List RecommendationEntry → List RecommendationEntry
  | [] => []
  | x :: xs => insertByScore x (sortByScore xs)

/-- Modelled from the spec: `get_career_recommendations(user_key, k)`, the
third caller-facing operation — build a synthetic query from goals and
skills, retrieve top-K candidate careers, then re-score and re-sort by
presence-only coverage. -/
def getCareerRecommendations (env : RagEnv) (userKey : String) (k : Nat) :
    List RecommendationEntry :=
  match usersLookup env userKey with
  | none => []
  | some u =>
    let q := String.intercalate " " (u.career_goal ++ u.skills)
    let cands := env.searchCareers q k
    sortByScore (cands.map (fun c =>
      ⟨c.title, coverage c.requirements u.skills,
        matchingSkillsText c.requirements u.skills⟩))

/-- src/main.py `get_detailed_analysis`: run the gap analysis for the
authenticated user, extend the missing-skill list with the persisted custom
override list when it is non-empty, and attach the currently-learning set. -/
def getDetailedAnalysisRoute (env : RagEnv) (userKey : String) :
    Option GapAnalysisDocument :=
  (usersLookup env userKey).map (fun u =>
    let analysis := gapAnalysisFor env u
    let withCustom :=
      if u.custom_missing_skills.isEmpty then analysis
      else { analysis with
              missing_skills := analysis.missing_skills ++ u.custom_missing_skills }
    { withCustom with currently_learning := u.currently_learning })

/-- A freshly registered user document, as `/register` creates it. -/
def sampleUser : UserDoc :=
  { email := "a@b.c", name := "A", skills := [], career_goal := [],
    qualifications := [], skill_ratings := [], custom_missing_skills := [],
    currently_learning := [], location := none, employment_status := none,
    current_activity := none, dreams := none, education := none,
    interests := none }

/-- An environment in which every external collaborator is unreachable:
the store resolves nobody, and every call reports the same outage. -/
def idleEnv : RagEnv :=
  { usersFindOne := fun _ => .ok none
    encode := fun _ => .error "offline"
    queryCareers := fun _ _ => .error "offline"
    querySkills := fun _ _ => .error "offline"
    queryFaqs := fun _ _ => .error "offline"
    generateContent := fun _ => .error "offline"
    systemPrompt := "SYSTEM"
    findRequirement := fun _ => none
    searchCareers := fun _ _ => [] }

/-- The outage environment, with the generative backend failing on a
different error detail. -/
def timeoutEnv : RagEnv :=
  { idleEnv with generateContent := fun _ => .error "timeout" }

/-- An environment whose profile store knows nobody but whose generative
backend answers. -/
def guestEnv : RagEnv :=
  { idleEnv with generateContent := fun _ => .ok "GENERATED ANSWER" }

/-- A user carrying a persisted custom missing-skill override entry. -/
def customUser : UserDoc :=
  { sampleUser with
    custom_missing_skills := [⟨"Excel", "Data Analyst", "Medium", "2-4 weeks"⟩] }

/-- An environment whose profile store resolves every key to
`customUser`. -/
def customEnv : RagEnv :=
  { idleEnv with usersFindOne := fun _ => .ok (some customUser) }

/-- A seven-message conversation history. -/
def msgs7 : List Msg :=
  [⟨"user", "m1"⟩, ⟨"assistant", "m2"⟩, ⟨"user", "m3"⟩, ⟨"assistant", "m4"⟩,
    ⟨"user", "m5"⟩, ⟨"assistant", "m6"⟩, ⟨"user", "m7"⟩]

/-! ## Helper lemmas -/

theorem mem_addToSet_iff {l : List String} {x y : String} :
    y ∈ addToSet l x ↔ y ∈ l ∨ y = x := by
  unfold addToSet
  split_ifs with h
  · constructor
    · exact Or.inl
    · rintro (hy | rfl)
      · exact hy
      · exact h
  · simp [List.mem_append]

theorem mem_pull_iff {l : List String} {x y : String} :
    y ∈ pull l x ↔ y ∈ l ∧ y ≠ x := by
  unfold pull
  simp

theorem mem_unsetKey_iff {m : List (String × Int)} {k : String} {p : String × Int} :
    p ∈ unsetKey m k ↔ p ∈ m ∧ p.1 ≠ k := by
  unfold unsetKey
  simp

theorem roundHE_le_100 {a b : ℕ} (h : a ≤ 100 * b) (hb : 0 < b) : roundHE a b ≤ 100 := by
  have hq : a / b ≤ 100 := by
    calc a / b ≤ 100 * b / b := Nat.div_le_div_right h
    _ = 100 := Nat.mul_div_cancel 100 hb
  have hlt : a < 100 * b → a / b < 100 := fun hl => (Nat.div_lt_iff_lt_mul hb).2 (by omega)
  have hcase : a = 100 * b → a % b = 0 := fun he => by rw [he]; exact Nat.mul_mod_left 100 b
  unfold roundHE
  split_ifs with h1 h2 h3
  · exact hq
  · rcases Nat.lt_or_ge a (100 * b) with hl | hg
    · have := hlt hl; omega
    · have hae : a = 100 * b := le_antisymm h hg
      have := hcase hae; omega
  · exact hq
  · rcases Nat.lt_or_ge a (100 * b) with hl | hg
    · have := hlt hl; omega
    · have hae : a = 100 * b := le_antisymm h hg
      have := hcase hae; omega

theorem roundHE_100_mul_eq_100_iff {m r : ℕ} (hm : m ≤ r) (hr : 0 < r)
    (hsmall : r < 200) : roundHE (100 * m) r = 100 ↔ m = r := by
  constructor
  · intro h
    by_contra hne
    have hmlt : m < r := lt_of_le_of_ne hm hne
    have key := Nat.div_add_mod (100 * m) r
    have hrem : 100 * m % r < r := Nat.mod_lt _ hr
    have hq : 100 * m / r < 100 := (Nat.div_lt_iff_lt_mul hr).2 (by omega)
    unfold roundHE at h
    split_ifs at h with h1 h2 h3
    · omega
    · have hq99 : 100 * m / r = 99 := by omega
      rw [hq99] at key
      omega
    · omega
    · have hq99 : 100 * m / r = 99 := by omega
      rw [hq99] at key
      omega
  · intro h
    subst h
    have h1 : 100 * m / m = 100 := Nat.mul_div_cancel 100 hr
    have h2 : 100 * m % m = 0 := Nat.mul_mod_left 100 m
    unfold roundHE
    rw [h1, h2]
    simp [hr]

theorem coverage_le_100 (req : List (String × Int)) (skills : List String) :
    coverage req skills ≤ 100 := by
  have hb : 0 < max 1 req.length := lt_of_lt_of_le one_pos (le_max_left _ _)
  refine roundHE_le_100 ?_ hb
  have hm : (presenceMatched req skills).length ≤ req.length :=
    List.length_filter_le _ _
  calc 100 * (presenceMatched req skills).length ≤ 100 * req.length :=
        Nat.mul_le_mul_left _ hm
  _ ≤ 100 * max 1 req.length := Nat.mul_le_mul_left _ (le_max_right _ _)

/-! ## Claim C3 -/

/-- Claim C3, counterexample: for the empty requirement map the stated
equivalence fails — every required label trivially has a normalized match,
yet the coverage score is 0, not 100 (the score-is-zero conjunct of the
claim itself contradicts its iff conjunct). -/
theorem C3_coverage_iff_fails_on_empty :
    coverage [] ["python"] = 0
    ∧ (∀ p ∈ ([] : List (String × Int)), normalize p.1 ∈ ["python"].map normalize)
    ∧ coverage [] ["python"] ≠ 100 := by
  refine ⟨rfl, ?_, by decide⟩
  intro p hp
  simp at hp

/-- Claim C3 (amended): presence-only coverage is
`round(100 × matched / max(1, required))`, lies in `[0, 100]`, is 0 for an
empty requirement map, and — for a requirement map of fewer than 200
entries — equals 100 iff the map is non-empty and every required label has
a normalized string match in the skill list. -/
theorem C3_presence_coverage (req : List (String × Int)) (skills : List String) :
    coverage req skills
        = roundHE (100 * (presenceMatched req skills).length) (max 1 req.length)
    ∧ coverage req skills ≤ 100
    ∧ (req = [] → coverage req skills = 0)
    ∧ (req.length < 200 →
        (coverage req skills = 100 ↔
          req ≠ [] ∧ ∀ p ∈ req, normalize p.1 ∈ skills.map normalize)) := by
  have hnil : ∀ sk : List String, coverage [] sk = 0 := by
    intro sk
    simp [coverage, presenceMatched, roundHE]
  refine ⟨rfl, coverage_le_100 req skills, ?_, ?_⟩
  · rintro rfl; exact hnil skills
  · intro hsmall
    rcases req with _ | ⟨p0, rest⟩
    · constructor
      · intro h
        have h0 := hnil skills
        omega
      · rintro ⟨hne, _⟩; exact absurd rfl hne
    · have hr : 0 < (p0 :: rest).length := Nat.succ_pos _
      have hm : (presenceMatched (p0 :: rest) skills).length ≤ (p0 :: rest).length :=
        List.length_filter_le _ _
      have hmax : max 1 (p0 :: rest).length = (p0 :: rest).length := Nat.max_eq_right hr
      rw [coverage, hmax, roundHE_100_mul_eq_100_iff hm hr hsmall,
        presenceMatched, List.filter_length_eq_length]
      constructor
      · intro hall
        refine ⟨List.cons_ne_nil _ _, fun p hp => ?_⟩
        simpa using hall p hp
      · rintro ⟨_, hall⟩ p hp
        simpa using hall p hp

/-- Claim C3, witness: a concrete fully-matched one-entry requirement map
scores 100 through the amended theorem. -/
theorem C3_presence_coverage_witness :
    ([(("Python" : String), (9 : Int))].length < 200)
    ∧ coverage [("Python", 9)] [" python "] = 100 :=
  ⟨by decide,
    ((C3_presence_coverage [("Python", 9)] [" python "]).2.2.2 (by decide)).mpr
      ⟨by decide, by decide⟩⟩

/-! ## Claims C7 and C10 -/

theorem skillAction_keeps_ratingsInvariant (u : UserDoc) (a : SkillAction)
    (hu : ratingsInvariant u) : ratingsInvariant (skillAction u a) := by
  unfold ratingsInvariant skillAction
  split_ifs with h1 h2 h3 h4 h5
  · intro p hp
    simp only at hp ⊢
    rcases List.mem_append.1 hp with hpo | hps
    · exact mem_addToSet_iff.2 (Or.inl (hu p hpo))
    · have : p = (a.skill, 1) := by simpa using hps
      rw [this]
      exact mem_addToSet_iff.2 (Or.inr rfl)
  · intro p hp
    exact mem_addToSet_iff.2 (Or.inl (hu p hp))
  · intro p hp
    rcases mem_unsetKey_iff.1 hp with ⟨hm, hne⟩
    exact mem_pull_iff.2 ⟨hu p hm, hne⟩
  · intro p hp
    rcases mem_unsetKey_iff.1 hp with ⟨hm, hne⟩
    exact mem_pull_iff.2 ⟨hu p hm, hne⟩
  · exact hu
  · exact hu

/-- Claim C7, counterexample: the analysis-save route writes the submitted
ratings verbatim, so it can introduce a rating for a skill that is not in
the skills list — the invariant is not preserved by every profile-mutating
operation. -/
theorem C7_save_analysis_breaks_invariant :
    ratingsInvariant sampleUser
    ∧ ¬ ratingsInvariant (saveAnalysis sampleUser [("Python", 5)] []) := by
  constructor
  · decide
  · decide

/-- Claim C7 (amended): profile update and skill toggle preserve the
invariant that every rated skill is listed (profile update even establishes
it unconditionally); analysis save preserves it exactly when every
submitted rating key is among the user's current skills. -/
theorem C7_profile_mutations_invariant (u : UserDoc) (d : UserProfileUpdate)
    (a : SkillAction) (r : List (String × Int)) (c : List MissingSkill)
    (hu : ratingsInvariant u) :
    ratingsInvariant (updateProfile u d)
    ∧ ratingsInvariant (skillAction u a)
    ∧ ((∀ p ∈ r, p.1 ∈ u.skills) → ratingsInvariant (saveAnalysis u r c)) := by
  refine ⟨?_, skillAction_keeps_ratingsInvariant u a hu, ?_⟩
  · intro p hp
    simp only [updateProfile, List.mem_filter] at hp ⊢
    exact of_decide_eq_true hp.2
  · intro hr p hp
    exact hr p hp

/-- Claim C7, witness: a concrete invariant-satisfying user stays
invariant-satisfying under all three operations. -/
theorem C7_profile_mutations_invariant_witness :
    ratingsInvariant
      (updateProfile sampleUser
        { name := none, location := none, employment_status := none,
          current_activity := none, career_goal := [], qualifications := [],
          skills := ["SQL"], currently_learning := [], dreams := none }) :=
  (C7_profile_mutations_invariant sampleUser
    { name := none, location := none, employment_status := none,
      current_activity := none, career_goal := [], qualifications := [],
      skills := ["SQL"], currently_learning := [], dreams := none }
    ⟨"SQL", "learned", true⟩ [] [] (by decide)).1

/-- Claim C10: the skill toggle keeps a skill in at most one of the learned
and in-progress lists — it removes a learned skill from
`currently_learning`, removes an in-progress skill (and its rating) from
`skills`, and preserves disjointness of the two lists. -/
theorem C10_toggle_disjoint (u : UserDoc) (d : SkillAction)
    (hd : learningDisjoint u) :
    learningDisjoint (skillAction u d)
    ∧ (d.action = "learned" → d.active = true →
        d.skill ∉ (skillAction u d).currently_learning)
    ∧ (d.action = "learning" → d.active = true →
        d.skill ∉ (skillAction u d).skills
        ∧ ∀ v : Int, (d.skill, v) ∉ (skillAction u d).skill_ratings) := by
  refine ⟨?_, ?_, ?_⟩
  · unfold learningDisjoint skillAction
    split_ifs with h1 h2 h3 h4 h5
    · intro s hs hcl
      simp only at hs hcl
      rcases mem_pull_iff.1 hcl with ⟨hc, hne⟩
      rcases mem_addToSet_iff.1 hs with hso | rfl
      · exact hd s hso hc
      · exact hne rfl
    · intro s hs hcl
      simp only at hs hcl
      rcases mem_pull_iff.1 hcl with ⟨hc, hne⟩
      rcases mem_addToSet_iff.1 hs with hso | rfl
      · exact hd s hso hc
      · exact hne rfl
    · intro s hs hcl
      simp only at hs hcl
      exact hd s (mem_pull_iff.1 hs).1 hcl
    · intro s hs hcl
      simp only at hs hcl
      rcases mem_pull_iff.1 hs with ⟨hso, hne⟩
      rcases mem_addToSet_iff.1 hcl with hc | rfl
      · exact hd s hso hc
      · exact hne rfl
    · intro s hs hcl
      simp only at hs hcl
      exact hd s hs (mem_pull_iff.1 hcl).1
    · exact hd
  · intro h1 h2
    unfold skillAction
    rw [if_pos h1, if_pos h2]
    split_ifs with h3
    · simp only
      intro hmem
      exact (mem_pull_iff.1 hmem).2 rfl
    · simp only
      intro hmem
      exact (mem_pull_iff.1 hmem).2 rfl
  · intro h1 h2
    have hne : d.action ≠ "learned" := by rw [h1]; decide
    unfold skillAction
    rw [if_neg hne, if_pos h1, if_pos h2]
    refine ⟨?_, ?_⟩
    · simp only
      intro hmem
      exact (mem_pull_iff.1 hmem).2 rfl
    · intro v hmem
      simp only at hmem
      exact (mem_unsetKey_iff.1 hmem).2 rfl

/-- Claim C10, witness: toggling a concrete skill to in-progress on a user
with disjoint lists keeps the lists disjoint and removes the skill and its
rating from the learned side. -/
theorem C10_toggle_disjoint_witness :
    learningDisjoint
      (skillAction
        { sampleUser with skills := ["Python"], skill_ratings := [("Python", 4)] }
        ⟨"Python", "learning", true⟩) :=
  (C10_toggle_disjoint
    { sampleUser with skills := ["Python"], skill_ratings := [("Python", 4)] }
    ⟨"Python", "learning", true⟩ (by decide)).1

/-! ## Claim C9 -/

/-- Claim C9: the history block of the grounding prompt holds exactly the
last five history messages — it is a suffix of the history, the whole
history when that has at most five messages, exactly five messages
otherwise, rendered in original order — it is empty for an absent or empty
history, and it occurs verbatim inside the built prompt. -/
theorem C9_history_window (h : List Msg) (env : RagEnv) (email q : String) :
    historyText none = ""
    ∧ historyText (some []) = ""
    ∧ historySlice h <:+ h
    ∧ (h.length ≤ 5 → historySlice h = h)
    ∧ (5 ≤ h.length → (historySlice h).length = 5)
    ∧ (h ≠ [] →
        historyText (some h) = histHeader ++ String.join ((historySlice h).map fmtMsg))
    ∧ (historyText (some h)).data <:+: (builtPrompt env email q (some h)).data := by
  refine ⟨rfl, rfl, List.drop_suffix _ _, ?_, ?_, ?_, ?_⟩
  · intro hle
    unfold historySlice
    rw [Nat.sub_eq_zero_of_le hle, List.drop_zero]
  · intro hge
    unfold historySlice
    rw [List.length_drop]
    omega
  · intro hne
    simp only [historyText]
    rw [if_neg (by simpa using hne)]
  · refine ⟨(promptPre env email q).data, (promptPost q).data, ?_⟩
    simp [builtPrompt]

/-- Claim C9, witness: on a concrete seven-message history the window keeps
exactly the last five messages and renders them after the header. -/
theorem C9_history_window_witness :
    5 ≤ msgs7.length
    ∧ (historySlice msgs7).length = 5
    ∧ historyText (some msgs7)
        = histHeader ++ String.join ((historySlice msgs7).map fmtMsg) :=
  ⟨by decide,
    (C9_history_window msgs7 idleEnv "u@x" "q").2.2.2.2.1 (by decide),
    (C9_history_window msgs7 idleEnv "u@x" "q").2.2.2.2.2.1 (by decide)⟩

/-! ## Claim C6 -/

/-- Claim C6: a failing embedding call degrades retrieval gracefully — the
embedding becomes the empty vector and `retrieve_context` returns the empty
result set for all three collections, with no exception escaping. -/
theorem C6_embedding_failure_empty (env : RagEnv) (query e : String)
    (nC nS nF : Nat) (thr : ℚ) (he : env.encode query = .error e) :
    getEmbedding env query = []
    ∧ retrieveContext env query nC nS nF thr = ⟨[], [], []⟩ := by
  have hg : getEmbedding env query = [] := by
    unfold getEmbedding
    rw [he]
  exact ⟨hg, by simp [retrieveContext, hg]⟩

/-- Claim C6, witness: the outage environment yields the empty retrieval
result at the default parameters. -/
theorem C6_embedding_failure_empty_witness :
    retrieveContext idleEnv "query" 3 5 2 (7 / 10) = ⟨[], [], []⟩ :=
  (C6_embedding_failure_empty idleEnv "query" "offline" 3 5 2 (7 / 10) rfl).2

/-! ## Claim C2 -/

set_option maxRecDepth 8192 in
/-- Claim C2, counterexample: two backend failures with different error
details produce different fallback answers, so the fallback message is not
fixed — `query_advisor` appends the caught error detail to the apology. -/
theorem C2_fallback_not_fixed :
    (∃ e, idleEnv.generateContent (builtPrompt idleEnv "u@x" "q" none) = .error e)
    ∧ (∃ e, timeoutEnv.generateContent (builtPrompt timeoutEnv "u@x" "q" none)
          = .error e)
    ∧ queryAdvisor idleEnv "u@x" "q" none ≠ queryAdvisor timeoutEnv "u@x" "q" none :=
  ⟨⟨"offline", rfl⟩, ⟨"timeout", rfl⟩, by decide⟩

set_option maxRecDepth 8192 in
/-- Claim C2 (amended): `query_advisor` never propagates a generation
failure — when the backend call fails it returns the fixed apology prefix
followed by the error details, and that fallback answer is non-empty. -/
theorem C2_fallback_on_failure (env : RagEnv) (email q : String)
    (hist : Option (List Msg)) (e : String)
    (hgen : env.generateContent (builtPrompt env email q hist) = .error e) :
    queryAdvisor env email q hist = fallbackApology ++ e
    ∧ queryAdvisor env email q hist ≠ "" := by
  have h1 : queryAdvisor env email q hist = fallbackApology ++ e := by
    unfold queryAdvisor
    rw [hgen]
  refine ⟨h1, ?_⟩
  rw [h1]
  intro hc
  have hlen := congrArg String.length hc
  rw [String.length_append] at hlen
  have hpos : 0 < fallbackApology.length := by decide
  have hz : ("" : String).length = 0 := rfl
  omega

/-- Claim C2, witness: a concrete failing backend yields the apologetic
fallback answer. -/
theorem C2_fallback_on_failure_witness :
    queryAdvisor idleEnv "u@x" "q" none = fallbackApology ++ "offline" :=
  (C2_fallback_on_failure idleEnv "u@x" "q" none "offline" rfl).1

/-! ## Claim C4 -/

/-- Claim C4, counterexample: with no stored profile the turn is not
terminal — the generative backend is still consulted and its answer, not
the fixed guest message, is what `query_advisor` returns. -/
theorem C4_guest_not_terminal :
    guestEnv.usersFindOne "ghost@x" = .ok none
    ∧ queryAdvisor guestEnv "ghost@x" "q" none = "GENERATED ANSWER"
    ∧ queryAdvisor guestEnv "ghost@x" "q" none ≠ guestProfileMsg :=
  ⟨rfl, rfl, by decide⟩

/-- Claim C4 (amended): when the user key resolves to no stored profile the
profile grounding block is the fixed guest message, and the turn proceeds
normally — the answer is the backend's response to the built prompt (or the
fallback apology on backend failure), not the guest message itself. -/
theorem C4_guest_context_proceeds (env : RagEnv) (email q : String)
    (hist : Option (List Msg)) (hu : env.usersFindOne email = .ok none) :
    getUserContext env email = guestProfileMsg
    ∧ queryAdvisor env email q hist =
        (match env.generateContent (builtPrompt env email q hist) with
          | .ok t => t
          | .error e => fallbackApology ++ e) := by
  constructor
  · unfold getUserContext
    rw [hu]
  · rfl

/-- Claim C4, witness: a concrete unresolved user still gets the guest
profile block. -/
theorem C4_guest_context_proceeds_witness :
    getUserContext guestEnv "ghost@x" = guestProfileMsg :=
  (C4_guest_context_proceeds guestEnv "ghost@x" "q" none rfl).1

/-! ## Claim C8 -/

/-- Claim C8: for a user with a non-empty persisted custom missing-skill
override list, the detailed-analysis route returns the computed
missing-skill list with the custom list appended in order, without
deduplication. -/
theorem C8_custom_skills_appended (env : RagEnv) (uk : String) (u : UserDoc)
    (hu : usersLookup env uk = some u) (hc : u.custom_missing_skills ≠ []) :
    ∃ doc, getDetailedAnalysisRoute env uk = some doc
      ∧ doc.missing_skills
          = (gapAnalysisFor env u).missing_skills ++ u.custom_missing_skills := by
  unfold getDetailedAnalysisRoute
  rw [hu]
  refine ⟨_, rfl, ?_⟩
  rcases hcm : u.custom_missing_skills with _ | ⟨m, ms⟩
  · exact absurd hcm hc
  · simp [hcm]

/-- Claim C8, witness: the concrete override entry of `customUser` is
appended to the computed list. -/
theorem C8_custom_skills_appended_witness :
    ∃ doc, getDetailedAnalysisRoute customEnv "a@b.c" = some doc
      ∧ doc.missing_skills
          = (gapAnalysisFor customEnv customUser).missing_skills
              ++ customUser.custom_missing_skills :=
  C8_custom_skills_appended customEnv "a@b.c" customUser rfl (by decide)

/-! ## Claim C5 -/

theorem mem_collectDocs (res : ChromaResult) (thr : ℚ) :
    ∀ (docs : List String) (j : Nat) (e : RetrievedDoc),
      e ∈ collectDocs res thr j docs ↔
        ∃ i, i < docs.length ∧ distAt res (j + i) < thr
          ∧ e = ⟨docs.getD i "", metaAt res (j + i), round3 (1 - distAt res (j + i))⟩ := by
  intro docs
  induction docs with
  | nil =>
    intro j e
    simp [collectDocs]
  | cons d ds ih =>
    intro j e
    unfold collectDocs
    split_ifs with hd
    · rw [List.mem_cons, ih (j + 1) e]
      constructor
      · rintro (rfl | ⟨i, hi, hdist, heq⟩)
        · exact ⟨0, by simp, by simpa using hd, by simp⟩
        · refine ⟨i + 1, by simpa using hi, ?_, ?_⟩
          · rw [show j + (i + 1) = j + 1 + i by omega]
            exact hdist
          · rw [show j + (i + 1) = j + 1 + i by omega, heq]
            simp
      · rintro ⟨i, hi, hdist, heq⟩
        rcases i with _ | i'
        · left
          rw [heq]
          simp
        · right
          refine ⟨i', by simpa using hi, ?_, ?_⟩
          · rw [show j + 1 + i' = j + (i' + 1) by omega]
            exact hdist
          · rw [show j + 1 + i' = j + (i' + 1) by omega, heq]
            simp
    · rw [ih (j + 1) e]
      constructor
      · rintro ⟨i, hi, hdist, heq⟩
        refine ⟨i + 1, by simpa using hi, ?_, ?_⟩
        · rw [show j + (i + 1) = j + 1 + i by omega]
          exact hdist
        · rw [show j + (i + 1) = j + 1 + i by omega, heq]
          simp
      · rintro ⟨i, hi, hdist, heq⟩
        rcases i with _ | i'
        · rw [show j + 0 = j by omega] at hdist
          exact absurd hdist hd
        · refine ⟨i', by simpa using hi, ?_, ?_⟩
          · rw [show j + 1 + i' = j + (i' + 1) by omega]
            exact hdist
          · rw [show j + 1 + i' = j + (i' + 1) by omega, heq]
            simp

/-- Claim C5, counterexample: a retained entry does not carry
`similarity = 1 - distance` — the stored similarity is rounded to three
decimal places, so at distance 1/3 it is 667/1000, not 2/3. -/
theorem C5_similarity_is_rounded :
    processCollection (.ok ⟨["doc"], some [1 / 3], some [[]]⟩) (7 / 10)
      = [⟨"doc", [], 667 / 1000⟩]
    ∧ ((667 : ℚ) / 1000 ≠ 1 - 1 / 3) := by
  constructor
  · unfold processCollection collectDocs
    norm_num [distAt, metaAt, round3, pyRoundQ]
    rfl
  · norm_num

/-- Claim C5 (amended): a collection query failure yields the empty list;
a successful query is filtered by the threshold on a distance basis — the
result contains exactly the candidates with `distance < threshold`, each
carrying `similarity = round(1 - distance, 3)` — and, whenever the query
embedding is non-empty, each of the three collections of the retrieval
result is exactly this filtered sequence. -/
theorem C5_threshold_filter (res : ChromaResult) (thr : ℚ) (msg : String)
    (e : RetrievedDoc) (env : RagEnv) (q : String) (nC nS nF : Nat) :
    processCollection (.error msg) thr = []
    ∧ (e ∈ processCollection (.ok res) thr ↔
        ∃ i, i < res.documents.length ∧ distAt res i < thr
          ∧ e = ⟨res.documents.getD i "", metaAt res i, round3 (1 - distAt res i)⟩)
    ∧ (getEmbedding env q ≠ [] →
        retrieveContext env q nC nS nF thr =
          { careers := processCollection (env.queryCareers (getEmbedding env q) nC) thr
            skills := processCollection (env.querySkills (getEmbedding env q) nS) thr
            faqs := processCollection (env.queryFaqs (getEmbedding env q) nF) thr }) := by
  refine ⟨rfl, ?_, ?_⟩
  · have hred : processCollection (.ok res) thr
        = if res.documents.isEmpty = true then [] else collectDocs res thr 0 res.documents :=
      rfl
    rw [hred]
    by_cases hemp : res.documents.isEmpty
    · rw [if_pos hemp]
      have hnil : res.documents = [] := by simpa using hemp
      simp [hnil]
    · rw [if_neg hemp]
      have := mem_collectDocs res thr res.documents 0 e
      simpa using this
  · intro hne
    rcases hval : getEmbedding env q with _ | ⟨x, xs⟩
    · exact absurd hval hne
    · unfold retrieveContext
      rw [hval]
      rfl

/-- Claim C5, witness: with a working embedder the careers field of the
retrieval result is the threshold-filtered careers query. -/
theorem C5_threshold_filter_witness :
    retrieveContext { idleEnv with encode := fun _ => .ok [1] } "q" 3 5 2 (7 / 10) =
      { careers := processCollection
          (RagEnv.queryCareers { idleEnv with encode := fun _ => .ok [1] }
            (getEmbedding { idleEnv with encode := fun _ => .ok [1] } "q") 3) (7 / 10)
        skills := processCollection
          (RagEnv.querySkills { idleEnv with encode := fun _ => .ok [1] }
            (getEmbedding { idleEnv with encode := fun _ => .ok [1] } "q") 5) (7 / 10)
        faqs := processCollection
          (RagEnv.queryFaqs { idleEnv with encode := fun _ => .ok [1] }
            (getEmbedding { idleEnv with encode := fun _ => .ok [1] } "q") 2) (7 / 10) } :=
  (C5_threshold_filter ⟨[], none, none⟩ (7 / 10) "m" ⟨"", [], 0⟩
      { idleEnv with encode := fun _ => .ok [1] } "q" 3 5 2).2.2
    (fun h => by simp [getEmbedding] at h)

/-! ## Claim C1 -/

theorem mem_insertByScore {x y : RecommendationEntry} {l : List RecommendationEntry} :
    y ∈ insertByScore x l ↔ y = x ∨ y ∈ l := by
  induction l with
  | nil => simp [insertByScore]
  | cons z zs ih =>
    unfold insertByScore
    split_ifs with h
    · simp [List.mem_cons]
    · simp only [List.mem_cons, ih]
      tauto

theorem length_insertByScore (x : RecommendationEntry) (l : List RecommendationEntry) :
    (insertByScore x l).length = l.length + 1 := by
  induction l with
  | nil => rfl
  | cons z zs ih =>
    unfold insertByScore
    split_ifs with h
    · rfl
    · simp [ih]

theorem mem_sortByScore {y : RecommendationEntry} {l : List RecommendationEntry} :
    y ∈ sortByScore l ↔ y ∈ l := by
  induction l with
  | nil => simp [sortByScore]
  | cons z zs ih =>
    unfold sortByScore
    rw [mem_insertByScore, ih, List.mem_cons]

theorem length_sortByScore (l : List RecommendationEntry) :
    (sortByScore l).length = l.length := by
  induction l with
  | nil => rfl
  | cons z zs ih =>
    unfold sortByScore
    rw [length_insertByScore, ih, List.length_cons]

/-- Claim C1: the advisor exposes the three caller-facing operations, and a
call for a resolved user returns a value of the stated shape — the chat
turn returns the backend answer or the apologetic fallback text, the
gap-analysis document has one chart per goal with parallel label and level
series, and the recommendation list is bounded by the requested K with each
entry scored by a coverage percentage in `[0, 100]`. -/
theorem C1_core_operations (env : RagEnv) (uk q : String) (hist : Option (List Msg))
    (k : Nat) (u : UserDoc) (hu : usersLookup env uk = some u)
    (hk : ∀ s, (env.searchCareers s k).length ≤ k) :
    ((∃ t, env.generateContent (builtPrompt env uk q hist) = .ok t
        ∧ queryAdvisor env uk q hist = t)
      ∨ (∃ e, env.generateContent (builtPrompt env uk q hist) = .error e
          ∧ queryAdvisor env uk q hist = fallbackApology ++ e))
    ∧ (∃ doc, getDetailedGapAnalysis env uk = some doc
        ∧ doc.charts.length = u.career_goal.length
        ∧ ∀ cs ∈ doc.charts,
            cs.labels.length = cs.user_levels.length
            ∧ cs.labels.length = cs.target_levels.length)
    ∧ (getCareerRecommendations env uk k).length ≤ k
    ∧ ∀ r ∈ getCareerRecommendations env uk k, r.match_score ≤ 100 := by
  refine ⟨?_, ?_, ?_, ?_⟩
  · rcases hgen : env.generateContent (builtPrompt env uk q hist) with e | t
    · exact Or.inr ⟨e, rfl, by unfold queryAdvisor; rw [hgen]⟩
    · exact Or.inl ⟨t, rfl, by unfold queryAdvisor; rw [hgen]⟩
  · unfold getDetailedGapAnalysis
    rw [hu]
    refine ⟨_, rfl, ?_, ?_⟩
    · simp [gapAnalysisFor]
    · intro cs hcs
      simp only [gapAnalysisFor, List.mem_map] at hcs
      rcases hcs with ⟨p, _, hp⟩
      rw [← hp]
      simp [chartFor]
  · unfold getCareerRecommendations
    rw [hu]
    simp only [length_sortByScore, List.length_map]
    exact hk _
  · intro r hr
    unfold getCareerRecommendations at hr
    rw [hu] at hr
    rw [mem_sortByScore] at hr
    simp only [List.mem_map] at hr
    rcases hr with ⟨c, _, hc⟩
    rw [← hc]
    exact coverage_le_100 c.requirements u.skills

/-- Claim C1, witness: for a concrete resolved user all three operations
return values of the stated shape; in particular the gap-analysis document
exists with parallel series. -/
theorem C1_core_operations_witness :
    ∃ doc, getDetailedGapAnalysis customEnv "a@b.c" = some doc
      ∧ doc.charts.length = customUser.career_goal.length
      ∧ ∀ cs ∈ doc.charts,
          cs.labels.length = cs.user_levels.length
          ∧ cs.labels.length = cs.target_levels.length :=
  (C1_core_operations customEnv "a@b.c" "q" none 3 customUser rfl
    (fun _ => Nat.zero_le 3)).2.1

end SkillSage
